import Mathlib

/-!
# Verification of the IR analyzer backend (ir_analyzer_ollama)

A shallow embedding of the backend of the `ir_analyzer_ollama` repository:
the annotation client (`analysis_engine.py`), the persistence layer
(`database.py`), the upload pipelines (`main.py`, `main_audio.py`), the
document validators (`document_processor.py`) and the speaker-detection
heuristic (`audio_processor.py`), together with theorems about the
behaviour of these operations.

Modelling conventions:
* Python values produced by `json.loads` are modelled by the inductive
  type `JVal` (numbers as rationals, objects as association lists with
  distinct keys, as produced by a JSON parser).
* The external HTTP call `call_ollama` either raises or returns the
  response text; its outcome is an `Except String String` input to the
  embedded functions.  The external `json.loads` of the Python standard
  library is an input of type `String → Option JVal` (`none` models a
  `json.JSONDecodeError`).
* SQLite tables are lists of rows kept in rowid (insertion) order; a
  `SELECT` without `ORDER BY` scans in that order.  `AUTOINCREMENT`
  row ids are modeled by per-table counters starting at 1.
* Python exceptions inside the pipeline are modelled with `Except`; a
  function that cannot raise is total.
-/

/-- A JSON value as produced by a JSON parser (the shape of Python data
returned by `json.loads`): numbers are modelled as rationals. -/
inductive JVal where
  | null : JVal
  | bool (b : Bool) : JVal
  | num (q : ℚ) : JVal
  | str (s : String) : JVal
  | arr (items : List JVal) : JVal
  | obj (fields : List (String × JVal)) : JVal

/-- First binding of `key` in an association list of JSON object fields
(parsed JSON objects have distinct keys). -/
def lookupField (fields : List (String × JVal)) (key : String) : Option JVal :=
  match fields with
  | [] => none
  | (k, v) :: rest => if k = key then some v else lookupField rest key

/-- Python subscript `j[key]`: raises `KeyError` on a missing key and
`TypeError` when `j` is not a dict. -/
def JVal.getItem (j : JVal) (key : String) : Except String JVal :=
  match j with
  | .obj fields =>
    match lookupField fields key with
    | some v => .ok v
    | none => .error ("KeyError: " ++ key)
  | _ => .error ("TypeError: value is not subscriptable by key " ++ key)

/-- Python `j.get(key, dflt)`: only dicts have a `get` method
(`AttributeError` otherwise); a missing key yields the default. -/
def JVal.dictGet (j : JVal) (key : String) (dflt : JVal) : Except String JVal :=
  match j with
  | .obj fields => .ok ((lookupField fields key).getD dflt)
  | _ => .error ("AttributeError: value has no attribute get")

/-- Python iteration `for x in j`: lists yield their items, dicts their
keys, strings their characters; other values raise `TypeError`. -/
def JVal.toIterList (j : JVal) : Except String (List JVal) :=
  match j with
  | .arr items => .ok items
  | .obj fields => .ok (fields.map (fun p => JVal.str p.1))
  | .str s => .ok (s.toList.map (fun c => JVal.str (String.mk [c])))
  | _ => .error "TypeError: value is not iterable"

/-!
## Annotation client (`analysis_engine.py`)

`call_ollama` performs the HTTP request and either raises (transport
error, non-200 status, unparseable HTTP body) or returns the generated
response text; an outcome of that call is an `Except String String`.
`loads` is the external `json.loads`.
-/

/-- Embedding of `get_default_analysis` of `analysis_engine.py`: the hard-coded
neutral default document-level result. -/
def get_default_analysis : JVal :=
  .obj [
    ("overall_sentiment", .str "neutral"),
    ("sentiment_score", .num 50),
    ("confidence_score", .num 50),
    ("clarity_score", .num 50),
    ("readability_score", .num 50),
    ("specificity_score", .num 50),
    ("key_themes", .arr [.str "Analysis unavailable"]),
    ("emotional_tone", .obj [
      ("positive", .num 33),
      ("negative", .num 33),
      ("neutral", .num 34),
      ("confident", .num 50),
      ("uncertain", .num 50)]),
    ("linguistic_metrics", .obj [
      ("avgSentenceLength", .num 20),
      ("complexWordRatio", .num (3/10)),
      ("passiveVoiceRatio", .num (2/10)),
      ("jargonDensity", .num (25/100)),
      ("hedgingLanguage", .num (15/100))])]

/-- Embedding of `get_default_sections` of `analysis_engine.py`: the single-element
"Full Document" default section list (`text[:500]` is the excerpt). -/
def get_default_sections (text : String) : JVal :=
  .arr [.obj [
    ("section_title", .str "Full Document"),
    ("section_type", .str "other"),
    ("speaker", .null),
    ("original_text", .str (text.take 500)),
    ("sentiment_score", .num 50),
    ("confidence_score", .num 50),
    ("clarity_score", .num 50),
    ("readability_score", .num 50),
    ("specificity_score", .num 50),
    ("issues", .arr [.str "Analysis unavailable - check Ollama connection"]),
    ("suggested_revision", .str "Unable to generate suggestions. Please ensure Ollama is running and a model is available."),
    ("revision_rationale", .str "Analysis requires a working Ollama installation with downloaded models.")]]

/-- Embedding of `analyze_document_content` of `analysis_engine.py`: calls the model
(`callResult` is the outcome of `call_ollama`), parses the response text
strictly as JSON (`loads` models `json.loads`), and on a raised transport
error or a parse failure returns `get_default_analysis` instead of
propagating the exception.  On a successful parse the parsed value is
returned unvalidated.  The function is total: it never raises. -/
def analyze_document_content (loads : String → Option JVal)
    (callResult : Except String String) : JVal :=
  match callResult with
  | .error _ => get_default_analysis
  | .ok response_text =>
    match loads response_text with
    | some result => result
    | none => get_default_analysis

/-- Embedding of `analyze_sections_content` of `analysis_engine.py`: same transport and
parse handling, but the success path returns `result.get("sections", [])`
(the empty list when the parsed object has no `"sections"` key, an
`AttributeError` → default when the parsed value is not a dict), and the
failure path returns `get_default_sections text`.  Total: never raises. -/
def analyze_sections_content (loads : String → Option JVal)
    (callResult : Except String String) (text : String) : JVal :=
  match callResult with
  | .error _ => get_default_sections text
  | .ok response_text =>
    match loads response_text with
    | none => get_default_sections text
    | some result =>
      match result.dictGet "sections" (.arr []) with
      | .ok v => v
      | .error _ => get_default_sections text

/-!
## Persistence layer (`database.py`)

Each SQLite table is a list of rows in rowid (insertion) order.  The
`AUTOINCREMENT` primary keys are modelled by per-table counters starting
at 1 (SQLite never reuses an id of a deleted row).  The JSON-typed text
columns of `analyses` and `sections` hold structured values directly,
modelling the write-side `json.dumps` composed with the read-side
`json.loads` of the external `json` library; the `document_ids` column
of `comparisons`, whose write/read round-trip is itself of interest, is
modelled as the serialized string (see `json_dumps_ids`).
-/

/-- A row of the `documents` table. -/
structure DocumentRow where
  id : Nat
  title : String
  document_type : String
  file_path : String
  status : String

/-- A row of the `analyses` table. -/
structure AnalysisRow where
  id : Nat
  document_id : Nat
  overall_sentiment : JVal
  sentiment_score : JVal
  confidence_score : JVal
  clarity_score : JVal
  readability_score : JVal
  specificity_score : JVal
  key_themes : JVal
  emotional_tone : JVal
  linguistic_metrics : JVal

/-- A row of the `sections` table. -/
structure SectionRow where
  id : Nat
  analysis_id : Nat
  section_title : JVal
  section_type : JVal
  speaker : JVal
  original_text : JVal
  sentiment_score : JVal
  confidence_score : JVal
  clarity_score : JVal
  readability_score : JVal
  specificity_score : JVal
  issues : JVal
  suggested_revision : JVal
  revision_rationale : JVal
  section_order : Nat

/-- A row of the `comparisons` table; `document_ids` holds the serialized
text column. -/
structure ComparisonRow where
  id : Nat
  title : String
  description : Option String
  document_ids : String

/-- A row of the `metrics_history` table. -/
structure MetricsRow where
  id : Nat
  document_id : Nat
  analysis_id : Nat
  document_type : String
  sentiment_score : JVal
  confidence_score : JVal
  clarity_score : JVal
  readability_score : JVal
  specificity_score : JVal

/-- The SQLite database state: five tables plus their rowid counters. -/
structure DB where
  documents : List DocumentRow
  analyses : List AnalysisRow
  sections : List SectionRow
  comparisons : List ComparisonRow
  metrics : List MetricsRow
  next_document_id : Nat
  next_analysis_id : Nat
  next_section_id : Nat
  next_comparison_id : Nat
  next_metrics_id : Nat

/-- A database as produced by `init_db`: empty tables, rowids start at 1. -/
def emptyDB : DB :=
  { documents := [], analyses := [], sections := [], comparisons := [],
    metrics := [], next_document_id := 1, next_analysis_id := 1,
    next_section_id := 1, next_comparison_id := 1, next_metrics_id := 1 }

/-- Well-formedness of a database state: every stored id is an already
assigned rowid (strictly below the table counter) and the `analyses`
table, which is only ever appended to, is in strictly increasing id
order.  Every state reachable from `emptyDB` through the operations of
`database.py` satisfies this. -/
def DB.WF (db : DB) : Prop :=
  (∀ d ∈ db.documents, d.id < db.next_document_id) ∧
  (∀ a ∈ db.analyses, a.id < db.next_analysis_id) ∧
  (∀ s ∈ db.sections, s.analysis_id < db.next_analysis_id) ∧
  (∀ c ∈ db.comparisons, c.id < db.next_comparison_id) ∧
  List.Chain' (fun a b => a.id < b.id) db.analyses

instance (db : DB) : Decidable db.WF :=
  inferInstanceAs (Decidable
    ((∀ d ∈ db.documents, d.id < db.next_document_id) ∧
     (∀ a ∈ db.analyses, a.id < db.next_analysis_id) ∧
     (∀ s ∈ db.sections, s.analysis_id < db.next_analysis_id) ∧
     (∀ c ∈ db.comparisons, c.id < db.next_comparison_id) ∧
     List.Chain' (fun a b : AnalysisRow => a.id < b.id) db.analyses))

/-- Embedding of `create_document`: INSERT with status `"uploading"`, returning
`lastrowid`. -/
def create_document (db : DB) (title document_type file_path : String) :
    DB × Nat :=
  let id := db.next_document_id
  ({ db with
      documents := db.documents ++
        [⟨id, title, document_type, file_path, "uploading"⟩],
      next_document_id := id + 1 }, id)

/-- Embedding of `get_document`: `SELECT * FROM documents WHERE id = ?` + `fetchone`,
scanning rows in rowid order. -/
def get_document (db : DB) (document_id : Nat) : Option DocumentRow :=
  db.documents.find? (fun d => d.id == document_id)

/-- Embedding of `update_document_status`: UPDATE the status column of every row with
the given id (ids are unique in a well-formed database). -/
def update_document_status (db : DB) (document_id : Nat) (status : String) :
    DB :=
  { db with
    documents := db.documents.map
      (fun d => if d.id == document_id then { d with status := status } else d) }

/-- Embedding of `create_analysis`: INSERT a row into `analyses`, returning
`lastrowid`.  The three JSON columns receive the `json.dumps` of their
arguments; the round-trip with the read side is modelled as identity. -/
def create_analysis (db : DB) (document_id : Nat)
    (overall_sentiment sentiment_score confidence_score clarity_score
      readability_score specificity_score key_themes emotional_tone
      linguistic_metrics : JVal) : DB × Nat :=
  let id := db.next_analysis_id
  ({ db with
      analyses := db.analyses ++
        [⟨id, document_id, overall_sentiment, sentiment_score,
          confidence_score, clarity_score, readability_score,
          specificity_score, key_themes, emotional_tone,
          linguistic_metrics⟩],
      next_analysis_id := id + 1 }, id)

/-- Embedding of `get_analysis_by_document_id`: `SELECT * FROM analyses WHERE
document_id = ?` with NO `ORDER BY`, followed by `fetchone()`.  The scan
visits rows in rowid order, so the first inserted matching row is
returned; the JSON columns are then parsed (identity in this model). -/
def get_analysis_by_document_id (db : DB) (document_id : Nat) :
    Option AnalysisRow :=
  (db.analyses.filter (fun a => a.document_id == document_id)).head?

/-- Embedding of `create_section`: INSERT a row into `sections` (the `order` argument
is stored in the `section_order` column), returning `lastrowid`. -/
def create_section (db : DB) (analysis_id : Nat)
    (section_title section_type speaker original_text sentiment_score
      confidence_score clarity_score readability_score specificity_score
      issues suggested_revision revision_rationale : JVal)
    (order : Nat) : DB × Nat :=
  let id := db.next_section_id
  ({ db with
      sections := db.sections ++
        [⟨id, analysis_id, section_title, section_type, speaker,
          original_text, sentiment_score, confidence_score, clarity_score,
          readability_score, specificity_score, issues, suggested_revision,
          revision_rationale, order⟩],
      next_section_id := id + 1 }, id)

/-- Insert a section row into a list sorted by `section_order`
(auxiliary for the `ORDER BY section_order` model). -/
def insertByOrder (r : SectionRow) : List SectionRow → List SectionRow
  | [] => [r]
  | x :: xs =>
    if r.section_order ≤ x.section_order then r :: x :: xs
    else x :: insertByOrder r xs

/-- Sort section rows by `section_order` (the `ORDER BY section_order` of
the read query; the stored orders are distinct, so any sort gives the
same result). -/
def sortByOrder : List SectionRow → List SectionRow
  | [] => []
  | x :: xs => insertByOrder x (sortByOrder xs)

/-- Embedding of `get_sections_by_analysis_id`: `SELECT * FROM sections WHERE
analysis_id = ? ORDER BY section_order`, parsing the `issues` column
(identity in this model). -/
def get_sections_by_analysis_id (db : DB) (analysis_id : Nat) :
    List SectionRow :=
  sortByOrder (db.sections.filter (fun s => s.analysis_id == analysis_id))

/-- Embedding of `create_metrics`: INSERT a row into `metrics_history`, returning
`lastrowid`. -/
def create_metrics (db : DB) (document_id analysis_id : Nat)
    (document_type : String)
    (sentiment_score confidence_score clarity_score readability_score
      specificity_score : JVal) : DB × Nat :=
  let id := db.next_metrics_id
  ({ db with
      metrics := db.metrics ++
        [⟨id, document_id, analysis_id, document_type, sentiment_score,
          confidence_score, clarity_score, readability_score,
          specificity_score⟩],
      next_metrics_id := id + 1 }, id)

/-!
## The serialized `document_ids` column

`create_comparison` stores `json.dumps(document_ids)` in a text column
and `get_comparison` re-parses it with `json.loads`.  The external
`json` library, restricted to the lists of non-negative row ids that the
endpoint stores, is modelled by the executable pair
`json_dumps_ids` / `json_loads_ids` below (decimal numerals in square
brackets, comma-separated). -/

/-- Decimal value of a digit character (inverse of `Nat.digitChar` on
digits). -/
def charVal (c : Char) : Option Nat :=
  if c = '0' then some 0
  else if c = '1' then some 1
  else if c = '2' then some 2
  else if c = '3' then some 3
  else if c = '4' then some 4
  else if c = '5' then some 5
  else if c = '6' then some 6
  else if c = '7' then some 7
  else if c = '8' then some 8
  else if c = '9' then some 9
  else none

/-- Decimal numeral of a natural number, most significant digit first. -/
def natChars (n : Nat) : List Char :=
  if n = 0 then ['0'] else (Nat.digits 10 n).reverse.map Nat.digitChar

/-- Parse every character as a decimal digit. -/
def parseDigits : List Char → Option (List Nat)
  | [] => some []
  | c :: rest =>
    match charVal c, parseDigits rest with
    | some d, some ds => some (d :: ds)
    | _, _ => none

/-- Parse a non-empty decimal numeral (most significant digit first). -/
def parseNatChars (cs : List Char) : Option Nat :=
  if cs.isEmpty then none
  else
    match parseDigits cs with
    | some ds => some (Nat.ofDigits 10 ds.reverse)
    | none => none

/-- Join character chunks with a comma separator. -/
def joinComma : List (List Char) → List Char
  | [] => []
  | [p] => p
  | p :: ps => p ++ ',' :: joinComma ps

/-- Split a character list at every comma. -/
def splitComma : List Char → List (List Char)
  | [] => [[]]
  | c :: rest =>
    if c = ',' then [] :: splitComma rest
    else
      match splitComma rest with
      | [] => [[c]]
      | p :: ps => (c :: p) :: ps

/-- Strip a trailing closing bracket. -/
def unwrapClose (cs : List Char) : Option (List Char) :=
  match cs.reverse with
  | ']' :: revInner => some revInner.reverse
  | _ => none

/-- Parse every chunk as a decimal numeral. -/
def parseAllNat : List (List Char) → Option (List Nat)
  | [] => some []
  | p :: ps =>
    match parseNatChars p, parseAllNat ps with
    | some n, some ns => some (n :: ns)
    | _, _ => none

/-- Model of `json.dumps` of a list of row ids (external `json` library modelled
on its integer-list fragment; whitespace is immaterial). -/
def json_dumps_ids (ids : List Nat) : String :=
  String.mk ('[' :: (joinComma (ids.map natChars) ++ [']']))

/-- Parse the bracket-stripped body of a serialized id list. -/
def json_loads_inner (inner : List Char) : Option (List Nat) :=
  match inner with
  | [] => some []
  | _ => parseAllNat (splitComma inner)

/-- Model of `json.loads` of a serialized list of row ids (`none` models a raised
`json.JSONDecodeError` on text that is not such a list). -/
def json_loads_ids (s : String) : Option (List Nat) :=
  match s.toList with
  | [] => none
  | c :: rest =>
    if c = '[' then (unwrapClose rest).bind json_loads_inner
    else none

/-- Embedding of `create_comparison` of `database.py`: INSERT with the serialized
`document_ids`, returning `lastrowid`. -/
def create_comparison (db : DB) (title : String) (description : Option String)
    (document_ids : List Nat) : DB × Nat :=
  let id := db.next_comparison_id
  ({ db with
      comparisons := db.comparisons ++
        [⟨id, title, description, json_dumps_ids document_ids⟩],
      next_comparison_id := id + 1 }, id)

/-- A comparison as returned by `get_comparison`: the `document_ids`
column parsed back by `json.loads` (`none` in `document_ids` models a
raised parse error on a corrupted column). -/
structure ComparisonOut where
  id : Nat
  title : String
  description : Option String
  document_ids : Option (List Nat)

/-- Embedding of `get_comparison` of `database.py`: `SELECT * FROM comparisons WHERE
id = ?` + `fetchone`, then `json.loads` on the `document_ids` column. -/
def get_comparison (db : DB) (comparison_id : Nat) : Option ComparisonOut :=
  match db.comparisons.find? (fun c => c.id == comparison_id) with
  | some row =>
    some ⟨row.id, row.title, row.description, json_loads_ids row.document_ids⟩
  | none => none

/-!
## Document validators (`document_processor.py`)
-/

/-- Characters after the last dot of a character list, if any. -/
def afterLastDot : List Char → Option (List Char)
  | [] => none
  | c :: rest =>
    match afterLastDot rest with
    | some tail => some tail
    | none => if c = '.' then some rest else none

/-- Model of `os.path.splitext(filename)[1].lower()`: the lowercased extension
from the last dot of the filename; a dot in first position starts no
extension (ordinary filenames; `os.path` is external). -/
def file_extension (filename : String) : String :=
  match filename.toList with
  | [] => ""
  | _ :: rest =>
    match afterLastDot rest with
    | some tail => String.mk ('.' :: tail.map Char.toLower)
    | none => ""

/-- Embedding of `validate_file_size` of `document_processor.py`: true when the file
size in bytes is at most `max_size_mb` megabytes.  (Defined in the
repository but never invoked by the upload endpoints.) -/
def validate_file_size (file_size : Nat) (max_size_mb : Nat) : Bool :=
  file_size ≤ max_size_mb * 1024 * 1024

/-!
## Speaker detection (`audio_processor.py`)
-/

/-- A transcription segment (`{start, end, text, speaker}`); times are
modelled as rationals. -/
structure Segment where
  start : ℚ
  seg_end : ℚ
  text : String
  speaker : Option String

/-- The loop of `detect_speakers_simple`, threading the mutable
`speaker_id` (initially 1) and `last_end` (initially 0): a segment whose
start exceeds `last_end` by more than 2 seconds bumps the speaker id
before the label is assigned. -/
def detect_speakers_go (speaker_id : Nat) (last_end : ℚ) :
    List Segment → List Segment
  | [] => []
  | seg :: rest =>
    let sid := if seg.start - last_end > 2 then speaker_id + 1 else speaker_id
    { seg with speaker := some ("Speaker " ++ toString sid) } ::
      detect_speakers_go sid seg.seg_end rest

/-- Embedding of `detect_speakers_simple` of `audio_processor.py`. -/
def detect_speakers_simple (segments : List Segment) : List Segment :=
  match segments with
  | [] => segments
  | _ => detect_speakers_go 1 0 segments

/-- The numeric speaker ids assigned by `detect_speakers_go` (the label
of the i-th output segment is `"Speaker " ++ toString` of the i-th id). -/
def speaker_ids_go (speaker_id : Nat) (last_end : ℚ) :
    List Segment → List Nat
  | [] => []
  | seg :: rest =>
    let sid := if seg.start - last_end > 2 then speaker_id + 1 else speaker_id
    sid :: speaker_ids_go sid seg.seg_end rest

/-!
## Pipeline orchestrator (`main.py`, `main_audio.py`)

The endpoints are modelled as functions of the request, the outcomes of
the external calls, and the database state.  Each returns the new
database, the list of status values the created document moved through
(starting with the `"uploading"` it is created in; empty when the
request is rejected before a row is created), and either the response or
the raised `HTTPException`.
-/

/-- A FastAPI `HTTPException`. -/
structure HErr where
  status_code : Nat
  detail : String

/-- Embedding of `valid_types` of `upload_document` / `upload_audio_document`. -/
def valid_types : List String :=
  ["press_release", "earnings_call", "corporate_release", "other"]

/-- Embedding of `allowed_extensions` of `upload_document`. -/
def allowed_extensions : List String := [".pdf", ".txt", ".doc", ".docx"]

/-- Embedding of `allowed_extensions` of `upload_audio_document`. -/
def allowed_audio_extensions : List String :=
  [".mp3", ".wav", ".m4a", ".ogg", ".flac", ".webm", ".mp4"]

/-- A document upload request.  `size_bytes` is the length of the
uploaded content; the handler writes the bytes to disk without ever
inspecting their count. -/
structure UploadRequest where
  title : String
  document_type : String
  model : String
  filename : String
  size_bytes : Nat

/-- Outcomes of the external calls made by one text-document upload:
the text extraction and, for each of the two annotation calls, the
`call_ollama` outcome, plus the external `json.loads`. -/
structure PipelineEnv where
  extract : Except String String
  loads : String → Option JVal
  doc_call : Except String String
  sec_call : Except String String

/-- The document-level fields subscripted out of `analysis_result` (in
the evaluation order of the `create_analysis` call arguments); a missing
key raises `KeyError`. -/
structure AnalysisFields where
  overall_sentiment : JVal
  sentiment_score : JVal
  confidence_score : JVal
  clarity_score : JVal
  readability_score : JVal
  specificity_score : JVal
  key_themes : JVal
  emotional_tone : JVal
  linguistic_metrics : JVal

/-- Subscript the nine document-level fields out of the annotation
result, as the argument list of `create_analysis` does. -/
def extract_analysis_fields (analysis_result : JVal) :
    Except String AnalysisFields := do
  let os ← analysis_result.getItem "overall_sentiment"
  let ss ← analysis_result.getItem "sentiment_score"
  let cf ← analysis_result.getItem "confidence_score"
  let cl ← analysis_result.getItem "clarity_score"
  let rd ← analysis_result.getItem "readability_score"
  let sp ← analysis_result.getItem "specificity_score"
  let kt ← analysis_result.getItem "key_themes"
  let et ← analysis_result.getItem "emotional_tone"
  let lm ← analysis_result.getItem "linguistic_metrics"
  pure ⟨os, ss, cf, cl, rd, sp, kt, et, lm⟩

/-- The per-section fields of one element of the sections result, in the
evaluation order of the `create_section` call arguments
(`section_type` and `speaker` are read with `.get`, the rest with
subscripts). -/
structure SectionFields where
  section_title : JVal
  section_type : JVal
  speaker : JVal
  original_text : JVal
  sentiment_score : JVal
  confidence_score : JVal
  clarity_score : JVal
  readability_score : JVal
  specificity_score : JVal
  issues : JVal
  suggested_revision : JVal
  revision_rationale : JVal

/-- Subscript the per-section fields out of one section value. -/
def extract_section_fields (s : JVal) : Except String SectionFields := do
  let st ← s.getItem "section_title"
  let ty ← s.dictGet "section_type" .null
  let sk ← s.dictGet "speaker" .null
  let ot ← s.getItem "original_text"
  let ss ← s.getItem "sentiment_score"
  let cf ← s.getItem "confidence_score"
  let cl ← s.getItem "clarity_score"
  let rd ← s.getItem "readability_score"
  let sp ← s.getItem "specificity_score"
  let is ← s.getItem "issues"
  let sr ← s.getItem "suggested_revision"
  let rr ← s.getItem "revision_rationale"
  pure ⟨st, ty, sk, ot, ss, cf, cl, rd, sp, is, sr, rr⟩

/-- The `for idx, section in enumerate(sections_result)` loop: each
iteration subscripts the section fields and inserts a row with
`order := idx`; a raised `KeyError`/`TypeError` aborts the loop,
keeping the rows already committed. -/
def persist_sections (db : DB) (analysis_id : Nat) (sections : List JVal)
    (idx : Nat) : DB × Except String Unit :=
  match sections with
  | [] => (db, .ok ())
  | s :: rest =>
    match extract_section_fields s with
    | .error e => (db, .error e)
    | .ok f =>
      let (db1, _) := create_section db analysis_id f.section_title
        f.section_type f.speaker f.original_text f.sentiment_score
        f.confidence_score f.clarity_score f.readability_score
        f.specificity_score f.issues f.suggested_revision
        f.revision_rationale idx
      persist_sections db1 analysis_id rest (idx + 1)

/-- The annotation-and-persistence block shared verbatim by
`upload_document` (main.py) and `upload_audio_document` (main_audio.py):
document-level analysis, `create_analysis`, section-level analysis with
the enumeration loop of `create_section`, then `create_metrics` (whose
arguments re-subscript the same score keys, yielding the values already
extracted).  Returns the committed database and the created analysis id
or the first raised exception. -/
def analyze_and_persist (loads : String → Option JVal)
    (doc_call sec_call : Except String String) (document_type : String)
    (text_content : String) (db : DB) (doc_id : Nat) :
    DB × Except String Nat :=
  let analysis_result := analyze_document_content loads doc_call
  match extract_analysis_fields analysis_result with
  | .error e => (db, .error e)
  | .ok f =>
    let (db1, analysis_id) := create_analysis db doc_id f.overall_sentiment
      f.sentiment_score f.confidence_score f.clarity_score
      f.readability_score f.specificity_score f.key_themes
      f.emotional_tone f.linguistic_metrics
    let sections_result := analyze_sections_content loads sec_call text_content
    match sections_result.toIterList with
    | .error e => (db1, .error e)
    | .ok sl =>
      match persist_sections db1 analysis_id sl 0 with
      | (db2, .error e) => (db2, .error e)
      | (db2, .ok _) =>
        let (db3, _) := create_metrics db2 doc_id analysis_id document_type
          f.sentiment_score f.confidence_score f.clarity_score
          f.readability_score f.specificity_score
        (db3, .ok analysis_id)

/-- The `try` body of `upload_document`: extraction, the `"processing"`
status write, then the shared annotation-and-persistence block; returns
the statuses written inside the body. -/
def upload_document_body (env : PipelineEnv) (document_type : String)
    (db : DB) (doc_id : Nat) : DB × List String × Except String Unit :=
  match env.extract with
  | .error e => (db, [], .error e)
  | .ok text_content =>
    let db1 := update_document_status db doc_id "processing"
    match analyze_and_persist env.loads env.doc_call env.sec_call
        document_type text_content db1 doc_id with
    | (db2, .error e) => (db2, ["processing"], .error e)
    | (db2, .ok _) =>
      let db3 := update_document_status db2 doc_id "completed"
      (db3, ["processing", "completed"], .ok ())

/-- Embedding of `upload_document` of `main.py`: validates the document type, the
file extension, the Ollama pre-flight probe and the model name (in that
order, each rejection leaving the database untouched), saves the file,
creates the Document row in `"uploading"`, runs the `try` body, and on a
raised exception writes `"failed"` and re-raises as a 500.  Note the
handler never reads `size_bytes`. -/
def upload_document (req : UploadRequest) (ollama_available : Bool)
    (available_models : List String) (env : PipelineEnv) (db : DB) :
    DB × List String × Except HErr DocumentRow :=
  if req.document_type ∉ valid_types then
    (db, [], .error ⟨400, "Invalid document type"⟩)
  else if file_extension req.filename ∉ allowed_extensions then
    (db, [], .error ⟨400, "File type not supported"⟩)
  else if ollama_available = false then
    (db, [], .error ⟨503, "Ollama not available"⟩)
  else if req.model ∉ available_models then
    (db, [], .error ⟨400, "Model not found"⟩)
  else
    let file_path := "data/uploads/" ++ req.filename
    let (db1, doc_id) := create_document db req.title req.document_type file_path
    match upload_document_body env req.document_type db1 doc_id with
    | (db2, tr, .error e) =>
      let db3 := update_document_status db2 doc_id "failed"
      (db3, "uploading" :: tr ++ ["failed"],
        .error ⟨500, "Analysis failed: " ++ e⟩)
    | (db2, tr, .ok _) =>
      match get_document db2 doc_id with
      | some doc => (db2, "uploading" :: tr, .ok doc)
      | none => (db2, "uploading" :: tr, .error ⟨500, "Document not found"⟩)

/-- An audio upload request (`upload_audio_document` form fields). -/
structure AudioUploadRequest where
  title : String
  document_type : String
  analysis_model : String
  transcription_preset : String
  language : String
  filename : String
  size_bytes : Nat

/-- Outcomes of the external calls of one audio upload:
`transcribe_audio_file` (its formatted text on success, the raised
exception otherwise — internal validation failures included), the two
annotation calls and `json.loads`. -/
structure AudioEnv where
  transcribe : Except String String
  loads : String → Option JVal
  doc_call : Except String String
  sec_call : Except String String

/-- The `try` body of `upload_audio_document`: the `"transcribing"`
write, transcription, the transcript side file (filesystem external),
the `"analyzing"` write, then the shared annotation-and-persistence
block. -/
def upload_audio_body (env : AudioEnv) (document_type : String) (db : DB)
    (doc_id : Nat) : DB × List String × Except String Unit :=
  let db1 := update_document_status db doc_id "transcribing"
  match env.transcribe with
  | .error e => (db1, ["transcribing"], .error e)
  | .ok text_content =>
    let db2 := update_document_status db1 doc_id "analyzing"
    match analyze_and_persist env.loads env.doc_call env.sec_call
        document_type text_content db2 doc_id with
    | (db3, .error e) => (db3, ["transcribing", "analyzing"], .error e)
    | (db3, .ok _) =>
      let db4 := update_document_status db3 doc_id "completed"
      (db4, ["transcribing", "analyzing", "completed"], .ok ())

/-- Embedding of `upload_audio_document` of `main_audio.py`: validates the document
type and the audio extension (no Ollama pre-flight, no size check),
saves the file, creates the Document row in `"uploading"`, runs the
`try` body, and on a raised exception writes `"failed"` and re-raises as
a 500.  Returns the created document id. -/
def upload_audio_document (req : AudioUploadRequest) (env : AudioEnv)
    (db : DB) : DB × List String × Except HErr Nat :=
  if req.document_type ∉ valid_types then
    (db, [], .error ⟨400, "Invalid document type"⟩)
  else if file_extension req.filename ∉ allowed_audio_extensions then
    (db, [], .error ⟨400, "Audio file type not supported"⟩)
  else
    let file_path := "data/uploads/" ++ req.filename
    let (db1, doc_id) := create_document db req.title req.document_type file_path
    match upload_audio_body env req.document_type db1 doc_id with
    | (db2, tr, .error e) =>
      let db3 := update_document_status db2 doc_id "failed"
      (db3, "uploading" :: tr ++ ["failed"],
        .error ⟨500, "Processing failed: " ++ e⟩)
    | (db2, tr, .ok _) => (db2, "uploading" :: tr, .ok doc_id)

/-- Embedding of `create_document_comparison` of `main.py`: rejects fewer than two
ids with a 400 and a missing document with a 404 (checking the ids in
order), otherwise inserts the comparison and reads it back. -/
def create_document_comparison (db : DB) (title : String)
    (description : Option String) (document_ids : List Nat) :
    DB × Except HErr ComparisonOut :=
  if document_ids.length < 2 then
    (db, .error ⟨400, "At least 2 documents required for comparison"⟩)
  else
    match document_ids.find? (fun i => (get_document db i).isNone) with
    | some _ => (db, .error ⟨404, "Document not found"⟩)
    | none =>
      let (db1, comp_id) := create_comparison db title description document_ids
      match get_comparison db1 comp_id with
      | some comp => (db1, .ok comp)
      | none => (db1, .error ⟨500, "Comparison not found"⟩)

/-!
## The status state machine (spec side)
-/

/-- Terminal document statuses. -/
def terminal_status (s : String) : Bool :=
  s == "completed" || s == "failed"

/-- The forward transitions of the documented status state machine:
`uploading → (transcribing → analyzing | processing) → completed`, with
`failed` reachable from every non-terminal status. -/
def status_step (a b : String) : Bool :=
  (a == "uploading" && (b == "processing" || b == "transcribing" || b == "failed")) ||
  (a == "transcribing" && (b == "analyzing" || b == "failed")) ||
  (a == "processing" && (b == "completed" || b == "failed")) ||
  (a == "analyzing" && (b == "completed" || b == "failed"))

/-- A status history is valid when it starts at `"uploading"` (unless the
request was rejected before a row existed), every consecutive pair is a
forward transition, and only its last element may be terminal. -/
def ValidStatusTrace (trace : List String) : Prop :=
  (trace = [] ∨ trace.head? = some "uploading") ∧
  List.Chain' (fun a b => status_step a b = true) trace ∧
  ∀ s ∈ trace.dropLast, terminal_status s = false

instance (trace : List String) : Decidable (ValidStatusTrace trace) :=
  inferInstanceAs (Decidable
    ((trace = [] ∨ trace.head? = some "uploading") ∧
     List.Chain' (fun a b => status_step a b = true) trace ∧
     ∀ s ∈ trace.dropLast, terminal_status s = false))

/-- A persisted score lies in the documented `[0, 100]` range. -/
def score_in_range : JVal → Bool
  | .num q => decide (0 ≤ q) && decide (q ≤ 100)
  | _ => false

/-!
## Canned concrete inputs

Concrete backend responses and requests used to evaluate the embedded
operations at specific inputs.
-/

/-- A well-shaped document-level annotation response with all scores 70. -/
def sampleAnalysisJson : JVal :=
  .obj [
    ("overall_sentiment", .str "positive"),
    ("sentiment_score", .num 70),
    ("confidence_score", .num 70),
    ("clarity_score", .num 70),
    ("readability_score", .num 70),
    ("specificity_score", .num 70),
    ("key_themes", .arr [.str "growth"]),
    ("emotional_tone", .obj [("positive", .num 60)]),
    ("linguistic_metrics", .obj [("avgSentenceLength", .num 18)])]

/-- A document-level annotation response whose sentiment score is 150:
syntactically valid JSON with every expected key present, but a score
outside the documented `[0, 100]` range. -/
def outOfRangeAnalysisJson : JVal :=
  .obj [
    ("overall_sentiment", .str "positive"),
    ("sentiment_score", .num 150),
    ("confidence_score", .num 70),
    ("clarity_score", .num 70),
    ("readability_score", .num 70),
    ("specificity_score", .num 70),
    ("key_themes", .arr [.str "growth"]),
    ("emotional_tone", .obj [("positive", .num 60)]),
    ("linguistic_metrics", .obj [("avgSentenceLength", .num 18)])]

/-- A well-shaped section entry. -/
def sampleSectionJson : JVal :=
  .obj [
    ("section_title", .str "Introduction"),
    ("section_type", .str "introduction"),
    ("speaker", .null),
    ("original_text", .str "Welcome."),
    ("sentiment_score", .num 60),
    ("confidence_score", .num 60),
    ("clarity_score", .num 60),
    ("readability_score", .num 60),
    ("specificity_score", .num 60),
    ("issues", .arr []),
    ("suggested_revision", .str "none"),
    ("revision_rationale", .str "clear")]

/-- A sections response holding two sections. -/
def sampleSectionsJson : JVal :=
  .obj [("sections", .arr [sampleSectionJson, sampleSectionJson])]

/-- A `json.loads` table for the canned response texts; every other text
is not JSON. -/
def sampleLoads : String → Option JVal := fun s =>
  if s = "DOC" then some sampleAnalysisJson
  else if s = "DOC150" then some outOfRangeAnalysisJson
  else if s = "SECS" then some sampleSectionsJson
  else if s = "NOSECS" then some (.obj [("status", .str "ok")])
  else none

/-- External-call outcomes of a fully successful text upload. -/
def sampleEnv : PipelineEnv :=
  ⟨.ok "quarterly report text", sampleLoads, .ok "DOC", .ok "SECS"⟩

/-- A valid text upload request. -/
def sampleRequest : UploadRequest :=
  ⟨"Test", "other", "llama3.2", "report.txt", 50⟩

/-!
## Theorems

### C1 — annotation failure substitutes the fixed defaults
-/

/-- C1: whenever the `call_ollama` transport/backend call raises, or it
returns text that `json.loads` cannot parse, `analyze_document_content`
returns exactly the hard-coded neutral default (neutral sentiment, all
five scores 50, the fixed default themes, tone and metric values) and
`analyze_sections_content` returns exactly the single-element
"Full Document" default section whose issues list is the
unavailable-analysis marker.  Both embedded operations are total
functions, so neither raises an exception to the caller. -/
theorem c1_failure_returns_defaults
    (loads : String → Option JVal) (callResult : Except String String)
    (text : String)
    (h : (∃ msg, callResult = .error msg) ∨
         (∃ t, callResult = .ok t ∧ loads t = none)) :
    analyze_document_content loads callResult = get_default_analysis ∧
    analyze_sections_content loads callResult text = get_default_sections text ∧
    get_default_analysis.getItem "overall_sentiment" = .ok (.str "neutral") ∧
    get_default_analysis.getItem "sentiment_score" = .ok (.num 50) ∧
    get_default_analysis.getItem "confidence_score" = .ok (.num 50) ∧
    get_default_analysis.getItem "clarity_score" = .ok (.num 50) ∧
    get_default_analysis.getItem "readability_score" = .ok (.num 50) ∧
    get_default_analysis.getItem "specificity_score" = .ok (.num 50) ∧
    get_default_analysis.getItem "key_themes" =
      .ok (.arr [.str "Analysis unavailable"]) ∧
    (∃ fields, get_default_sections text = .arr [.obj fields] ∧
      lookupField fields "section_title" = some (.str "Full Document") ∧
      lookupField fields "issues" =
        some (.arr [.str "Analysis unavailable - check Ollama connection"])) := by
  have hdoc : analyze_document_content loads callResult = get_default_analysis := by
    rcases h with ⟨msg, rfl⟩ | ⟨t, rfl, ht⟩
    · rfl
    · simp [analyze_document_content, ht]
  have hsec : analyze_sections_content loads callResult text
      = get_default_sections text := by
    rcases h with ⟨msg, rfl⟩ | ⟨t, rfl, ht⟩
    · rfl
    · simp [analyze_sections_content, ht]
  exact ⟨hdoc, hsec, rfl, rfl, rfl, rfl, rfl, rfl, rfl, _, rfl, rfl, rfl⟩

/-- Witness for C1 at a concrete non-JSON backend response. -/
theorem c1_failure_returns_defaults_witness :
    analyze_document_content (fun _ => none) (.ok "I am not JSON")
      = get_default_analysis ∧
    analyze_sections_content (fun _ => none) (.ok "I am not JSON")
        "some document" = get_default_sections "some document" :=
  have h := c1_failure_returns_defaults (fun _ => none) (.ok "I am not JSON")
    "some document" (Or.inr ⟨"I am not JSON", rfl, rfl⟩)
  ⟨h.1, h.2.1⟩

/-!
### C8 — speaker detection by silence gaps
-/

/-- The labels assigned by the detection loop are exactly
`"Speaker " ++` the numeric ids of `speaker_ids_go`. -/
theorem detect_go_labels (sid : Nat) (last : ℚ) (segs : List Segment) :
    (detect_speakers_go sid last segs).map Segment.speaker
      = (speaker_ids_go sid last segs).map
          (fun n => some ("Speaker " ++ toString n)) := by
  induction segs generalizing sid last with
  | nil => rfl
  | cons s rest ih => simp [detect_speakers_go, speaker_ids_go, ih]

/-- Apart from the labels, the loop returns the input segments. -/
theorem detect_go_ids (sid : Nat) (last : ℚ) (segs : List Segment) :
    List.Chain'
      (fun a b => b.2 = if b.1.start - a.1.seg_end > 2 then a.2 + 1 else a.2)
      (segs.zip (speaker_ids_go sid last segs)) := by
  induction segs generalizing sid last with
  | nil => simp
  | cons s rest ih =>
    cases rest with
    | nil => simp [speaker_ids_go]
    | cons t rest2 =>
      rw [speaker_ids_go]
      rw [speaker_ids_go]
      rw [List.zip_cons_cons, List.zip_cons_cons, List.chain'_cons]
      constructor
      · rfl
      · have h := ih (if s.start - last > 2 then sid + 1 else sid) s.seg_end
        rw [speaker_ids_go] at h
        exact h

/-- C8 (counterexample): two segments with no silence gap between them
(the second starts 1 second after the first ends) are both labelled
`"Speaker 2"`, not `"Speaker 1"`, because the first segment starts more
than 2 seconds after the initial `last_end` of 0. -/
theorem c8_two_close_segments_not_speaker1 :
    ((6 : ℚ) - 5 ≤ 2) ∧
    (detect_speakers_simple
        [⟨3, 5, "hello", none⟩, ⟨6, 8, "again", none⟩]).map Segment.speaker
      = [some "Speaker 2", some "Speaker 2"] ∧
    some "Speaker 2" ≠ some "Speaker 1" := by
  refine ⟨by norm_num, ?_, by decide⟩
  have h1 : ((3 : ℚ) - 0 > 2) := by norm_num
  have h2 : ¬((6 : ℚ) - 5 > 2) := by norm_num
  simp only [detect_speakers_simple, detect_speakers_go, h1, h2, if_true,
    if_false, List.map_cons, List.map_nil]
  decide

/-- C8 (amended): in `detect_speakers_simple`, a segment whose start
exceeds the previous segment's end by more than 2 seconds gets the
incremented speaker id and a segment without such a gap keeps the
previous id (first conjunct, via the id chain; second conjunct maps ids
to the actual labels); the first segment is compared against an initial
`last_end` of 0, so for two segments with no gap exceeding 2 seconds
between them both get `"Speaker 1"` exactly when the first starts within
2 seconds of time zero, and both get `"Speaker 2"` otherwise. -/
theorem c8_amended_speaker_labels (segments : List Segment) :
    List.Chain'
      (fun a b => b.2 = if b.1.start - a.1.seg_end > 2 then a.2 + 1 else a.2)
      (segments.zip (speaker_ids_go 1 0 segments)) ∧
    (detect_speakers_simple segments).map Segment.speaker
      = (speaker_ids_go 1 0 segments).map
          (fun n => some ("Speaker " ++ toString n)) ∧
    (∀ s1 s2 : Segment, s2.start - s1.seg_end ≤ 2 →
      (detect_speakers_simple [s1, s2]).map Segment.speaker
        = if s1.start > 2
          then [some "Speaker 2", some "Speaker 2"]
          else [some "Speaker 1", some "Speaker 1"]) := by
  refine ⟨detect_go_ids 1 0 segments, ?_, ?_⟩
  · cases segments with
    | nil => rfl
    | cons s rest => exact detect_go_labels 1 0 (s :: rest)
  · intro s1 s2 hgap
    have hng : ¬(s2.start - s1.seg_end > 2) := not_lt.mpr hgap
    simp only [detect_speakers_simple, detect_speakers_go, hng, if_false,
      List.map_cons, List.map_nil, sub_zero]
    split
    · rfl
    · rfl

/-- Witness for C8 (amended) at two concrete gap-free segments starting
at time 1: both are labelled `"Speaker 1"`. -/
theorem c8_amended_speaker_labels_witness :
    (detect_speakers_simple
        [⟨1, 5, "hello", none⟩, ⟨6, 8, "again", none⟩]).map Segment.speaker
      = [some "Speaker 1", some "Speaker 1"] := by
  have h := (c8_amended_speaker_labels
    [⟨1, 5, "hello", none⟩, ⟨6, 8, "again", none⟩]).2.2
    ⟨1, 5, "hello", none⟩ ⟨6, 8, "again", none⟩ (by norm_num)
  rw [h]
  norm_num

/-!
### C6 — comparison round-trip through the serialized column
-/

/-- The map `charVal` inverts `Nat.digitChar` on decimal digits. -/
theorem charVal_digitChar (d : Nat) (hd : d < 10) :
    charVal (Nat.digitChar d) = some d := by
  interval_cases d <;> rfl

/-- The parser `parseDigits` inverts the rendering of a decimal digit list. -/
theorem parseDigits_map_digitChar (ds : List Nat) (h : ∀ d ∈ ds, d < 10) :
    parseDigits (ds.map Nat.digitChar) = some ds := by
  induction ds with
  | nil => rfl
  | cons d rest ih =>
    rw [List.map_cons, parseDigits, charVal_digitChar d (h d (by simp)),
      ih (fun x hx => h x (by simp [hx]))]

/-- A decimal numeral is never empty. -/
theorem natChars_ne_nil (n : Nat) : natChars n ≠ [] := by
  unfold natChars
  split
  · simp
  · simp [Nat.digits_ne_nil_iff_ne_zero.mpr (by assumption)]

/-- No comma occurs in a decimal numeral. -/
theorem comma_not_mem_natChars (n : Nat) : ',' ∉ natChars n := by
  unfold natChars
  split
  · simp
  · intro hmem
    simp only [List.mem_map, List.mem_reverse] at hmem
    obtain ⟨d, hd, hchar⟩ := hmem
    have hlt : d < 10 := Nat.digits_lt_base (by norm_num) hd
    interval_cases d <;> simp_all [Nat.digitChar]

/-- Parsing a rendered decimal numeral recovers the number. -/
theorem parseNatChars_natChars (n : Nat) :
    parseNatChars (natChars n) = some n := by
  by_cases hn : n = 0
  · subst hn; rfl
  · have hne : (Nat.digits 10 n).reverse.map Nat.digitChar ≠ [] := by
      simp [Nat.digits_ne_nil_iff_ne_zero.mpr hn]
    rw [natChars, if_neg hn, parseNatChars]
    rw [List.isEmpty_eq_false.mpr hne, if_neg (by simp)]
    rw [parseDigits_map_digitChar _
      (fun d hd => Nat.digits_lt_base (by norm_num)
        (List.mem_reverse.mp hd))]
    simp [Nat.ofDigits_digits]

/-- Splitting a comma-free chunk yields that chunk alone. -/
theorem splitComma_noComma (p : List Char) (h : ',' ∉ p) :
    splitComma p = [p] := by
  induction p with
  | nil => rfl
  | cons c rest ih =>
    have hc : ¬(c = ',') := fun hc => h (by simp [hc])
    rw [splitComma, if_neg hc, ih (fun hm => h (by simp [hm]))]

/-- Splitting past a comma-free chunk peels it off. -/
theorem splitComma_append (p t : List Char) (h : ',' ∉ p) :
    splitComma (p ++ ',' :: t) = p :: splitComma t := by
  induction p with
  | nil => simp [splitComma]
  | cons c rest ih =>
    have hc : ¬(c = ',') := fun hc => h (by simp [hc])
    rw [List.cons_append, splitComma, if_neg hc,
      ih (fun hm => h (by simp [hm]))]

/-- The splitter `splitComma` inverts `joinComma` on non-empty lists of comma-free
chunks. -/
theorem splitComma_joinComma (parts : List (List Char))
    (hne : parts ≠ []) (h : ∀ p ∈ parts, ',' ∉ p) :
    splitComma (joinComma parts) = parts := by
  induction parts with
  | nil => exact absurd rfl hne
  | cons p rest ih =>
    cases rest with
    | nil => exact splitComma_noComma p (h p (by simp))
    | cons q rest2 =>
      rw [joinComma, splitComma_append p _ (h p (by simp)),
        ih (List.cons_ne_nil q rest2) (fun x hx => h x (by simp [hx]))]
      exact List.cons_ne_nil q rest2

/-- The parser `parseAllNat` inverts the chunk-wise rendering of the ids. -/
theorem parseAllNat_map_natChars (ids : List Nat) :
    parseAllNat (ids.map natChars) = some ids := by
  induction ids with
  | nil => rfl
  | cons i rest ih =>
    rw [List.map_cons, parseAllNat, parseNatChars_natChars, ih]

/-- The helper `unwrapClose` strips the rendered closing bracket. -/
theorem unwrapClose_append (xs : List Char) :
    unwrapClose (xs ++ [']']) = some xs := by
  rw [unwrapClose, List.reverse_append]
  simp

/-- The write/read round-trip of the serialized `document_ids` column:
`json.loads` of `json.dumps` of a list of row ids returns the same list
in the same order. -/
theorem json_loads_dumps_ids (ids : List Nat) :
    json_loads_ids (json_dumps_ids ids) = some ids := by
  have h1 : json_loads_ids (json_dumps_ids ids)
      = (unwrapClose (joinComma (ids.map natChars) ++ [']'])).bind
          json_loads_inner := rfl
  rw [h1, unwrapClose_append, Option.some_bind]
  cases ids with
  | nil => rfl
  | cons i rest =>
    have hne : joinComma ((i :: rest).map natChars) ≠ [] := by
      cases rest with
      | nil => exact natChars_ne_nil i
      | cons j rest2 => simp [joinComma]
    have hinner : json_loads_inner (joinComma ((i :: rest).map natChars))
        = parseAllNat (splitComma (joinComma ((i :: rest).map natChars))) := by
      cases hj : joinComma ((i :: rest).map natChars) with
      | nil => exact absurd hj hne
      | cons c cs => rfl
    rw [hinner,
      splitComma_joinComma _ (by simp)
        (fun p hp => by
          obtain ⟨m, _, rfl⟩ := List.mem_map.mp hp
          exact comma_not_mem_natChars m),
      parseAllNat_map_natChars]

/-- C6: creating a comparison from at least two valid document ids and
reading it back returns exactly those ids in the original order (the
write/read round-trip through the serialized column), and the insert
appends exactly one row; a request with fewer than two ids is rejected
with a 400 client error and the database is unchanged. -/
theorem c6_comparison_roundtrip (db : DB) (title : String)
    (description : Option String) (document_ids : List Nat)
    (hwf : db.WF) :
    (2 ≤ document_ids.length →
      (∀ i ∈ document_ids, (get_document db i).isSome) →
      ∃ comp,
        (create_document_comparison db title description document_ids).2
          = .ok comp ∧
        comp.document_ids = some document_ids ∧
        comp.title = title ∧ comp.description = description ∧
        (create_document_comparison db title description document_ids).1.comparisons
          = db.comparisons ++
            [⟨db.next_comparison_id, title, description,
              json_dumps_ids document_ids⟩]) ∧
    (document_ids.length < 2 →
      create_document_comparison db title description document_ids
        = (db, .error ⟨400, "At least 2 documents required for comparison"⟩)) := by
  constructor
  · intro hlen hvalid
    have hnotlt : ¬(document_ids.length < 2) := not_lt.mpr hlen
    have hfind : document_ids.find? (fun i => (get_document db i).isNone) = none := by
      rw [List.find?_eq_none]
      intro i hi
      simp [Option.isNone_iff_eq_none,
        Option.isSome_iff_ne_none.mp (hvalid i hi)]
    have hfresh : db.comparisons.find?
        (fun c => c.id == db.next_comparison_id) = none := by
      rw [List.find?_eq_none]
      intro c hc
      have := hwf.2.2.2.1 c hc
      simp
      omega
    refine ⟨⟨db.next_comparison_id, title, description,
      json_loads_ids (json_dumps_ids document_ids)⟩, ?_, ?_, rfl, rfl, ?_⟩
    · rw [create_document_comparison, if_neg hnotlt, hfind]
      simp only [create_comparison, get_comparison, List.find?_append, hfresh,
        Option.none_or, List.find?_cons]
      simp
    · simp [json_loads_dumps_ids]
    · rw [create_document_comparison, if_neg hnotlt, hfind]
      simp only [create_comparison, get_comparison, List.find?_append, hfresh,
        Option.none_or, List.find?_cons]
      simp
  · intro hlt
    rw [create_document_comparison, if_pos hlt]

/-- Witness for C6: a database holding two documents, a comparison of
ids `[2, 1]`: the read-back returns `[2, 1]` in that order. -/
theorem c6_comparison_roundtrip_witness :
    ∃ comp,
      (create_document_comparison
        { documents := [⟨1, "A", "other", "a.txt", "completed"⟩,
                        ⟨2, "B", "other", "b.txt", "completed"⟩],
          analyses := [], sections := [], comparisons := [], metrics := [],
          next_document_id := 3, next_analysis_id := 1, next_section_id := 1,
          next_comparison_id := 1, next_metrics_id := 1 }
        "Q1 vs Q2" none [2, 1]).2 = .ok comp ∧
      comp.document_ids = some [2, 1] ∧
      comp.title = "Q1 vs Q2" ∧ comp.description = none ∧
      (create_document_comparison
        { documents := [⟨1, "A", "other", "a.txt", "completed"⟩,
                        ⟨2, "B", "other", "b.txt", "completed"⟩],
          analyses := [], sections := [], comparisons := [], metrics := [],
          next_document_id := 3, next_analysis_id := 1, next_section_id := 1,
          next_comparison_id := 1, next_metrics_id := 1 }
        "Q1 vs Q2" none [2, 1]).1.comparisons
        = [] ++ [⟨1, "Q1 vs Q2", none, json_dumps_ids [2, 1]⟩] :=
  (c6_comparison_roundtrip
    { documents := [⟨1, "A", "other", "a.txt", "completed"⟩,
                    ⟨2, "B", "other", "b.txt", "completed"⟩],
      analyses := [], sections := [], comparisons := [], metrics := [],
      next_document_id := 3, next_analysis_id := 1, next_section_id := 1,
      next_comparison_id := 1, next_metrics_id := 1 }
    "Q1 vs Q2" none [2, 1] (by decide)).1 (by decide) (by decide)

/-!
### C9 — which Analysis row a read returns
-/

/-- C9 (counterexample): a document with two Analysis rows (ids 1 and 2,
created in that order).  `get_analysis_by_document_id` — a `SELECT`
without `ORDER BY` followed by `fetchone()` — returns the row with id 1,
the first created, although the most recently created matching row has
id 2. -/
theorem c9_returns_first_created_row :
    ((get_analysis_by_document_id
        (create_analysis
          (create_analysis emptyDB 1 (.str "neutral") (.num 50) (.num 50)
            (.num 50) (.num 50) (.num 50) (.arr []) (.obj []) (.obj [])).1
          1 (.str "positive") (.num 80) (.num 80) (.num 80) (.num 80)
          (.num 80) (.arr []) (.obj []) (.obj [])).1
        1).map AnalysisRow.id = some 1) ∧
    (∃ a ∈ (create_analysis
          (create_analysis emptyDB 1 (.str "neutral") (.num 50) (.num 50)
            (.num 50) (.num 50) (.num 50) (.arr []) (.obj []) (.obj [])).1
          1 (.str "positive") (.num 80) (.num 80) (.num 80) (.num 80)
          (.num 80) (.arr []) (.obj []) (.obj [])).1.analyses,
        a.document_id = 1 ∧ a.id = 2) ∧
    (1 : Nat) ≠ 2 := by
  refine ⟨rfl, ⟨⟨2, 1, .str "positive", .num 80, .num 80, .num 80, .num 80,
    .num 80, .arr [], .obj [], .obj []⟩, ?_, rfl, rfl⟩, by decide⟩
  simp [create_analysis, emptyDB]

/-- C9 (amended): on an `analyses` table in increasing-id (creation)
order, `get_analysis_by_document_id` returns a matching row with the
SMALLEST id among the document's Analysis rows — the first created, not
the latest. -/
theorem c9_amended_read_returns_earliest (db : DB) (document_id : Nat)
    (row : AnalysisRow)
    (hsorted : List.Chain' (fun a b => a.id < b.id) db.analyses)
    (h : get_analysis_by_document_id db document_id = some row) :
    row ∈ db.analyses ∧ row.document_id = document_id ∧
    ∀ a ∈ db.analyses, a.document_id = document_id → row.id ≤ a.id := by
  have hpw : List.Pairwise (fun a b => a.id < b.id) db.analyses := by
    have : IsTrans AnalysisRow (fun a b => a.id < b.id) :=
      ⟨fun a b c h1 h2 => lt_trans h1 h2⟩
    exact List.chain'_iff_pairwise.mp hsorted
  have hpwf : List.Pairwise (fun a b => a.id < b.id)
      (db.analyses.filter (fun a => a.document_id == document_id)) :=
    hpw.sublist (List.filter_sublist db.analyses)
  unfold get_analysis_by_document_id at h
  cases hf : db.analyses.filter (fun a => a.document_id == document_id) with
  | nil => rw [hf] at h; exact absurd h (by simp)
  | cons x xs =>
    rw [hf] at h
    have hx : x = row := by simpa using h
    subst hx
    have hxmem : x ∈ db.analyses.filter (fun a => a.document_id == document_id) := by
      rw [hf]; exact List.mem_cons_self x xs
    have hxprop := List.mem_filter.mp hxmem
    refine ⟨hxprop.1, by simpa using hxprop.2, ?_⟩
    intro a ha hadoc
    have hamem : a ∈ db.analyses.filter (fun a => a.document_id == document_id) :=
      List.mem_filter.mpr ⟨ha, by simp [hadoc]⟩
    rw [hf] at hamem
    rcases List.mem_cons.mp hamem with rfl | htail
    · exact le_refl _
    · rw [hf] at hpwf
      exact le_of_lt ((List.pairwise_cons.mp hpwf).1 a htail)

/-- Witness for C9 (amended) on the two-analysis table of the
counterexample: the returned row has id 1, the minimum. -/
theorem c9_amended_read_returns_earliest_witness :
    (⟨1, 1, .str "neutral", .num 50, .num 50, .num 50, .num 50, .num 50,
        .arr [], .obj [], .obj []⟩ : AnalysisRow) ∈
      (create_analysis
        (create_analysis emptyDB 1 (.str "neutral") (.num 50) (.num 50)
          (.num 50) (.num 50) (.num 50) (.arr []) (.obj []) (.obj [])).1
        1 (.str "positive") (.num 80) (.num 80) (.num 80) (.num 80)
        (.num 80) (.arr []) (.obj []) (.obj [])).1.analyses ∧
    (⟨1, 1, .str "neutral", .num 50, .num 50, .num 50, .num 50, .num 50,
        .arr [], .obj [], .obj []⟩ : AnalysisRow).document_id = 1 ∧
    ∀ a ∈ (create_analysis
        (create_analysis emptyDB 1 (.str "neutral") (.num 50) (.num 50)
          (.num 50) (.num 50) (.num 50) (.arr []) (.obj []) (.obj [])).1
        1 (.str "positive") (.num 80) (.num 80) (.num 80) (.num 80)
        (.num 80) (.arr []) (.obj []) (.obj [])).1.analyses,
      a.document_id = 1 →
      (⟨1, 1, .str "neutral", .num 50, .num 50, .num 50, .num 50, .num 50,
          .arr [], .obj [], .obj []⟩ : AnalysisRow).id ≤ a.id :=
  c9_amended_read_returns_earliest
    (create_analysis
      (create_analysis emptyDB 1 (.str "neutral") (.num 50) (.num 50)
        (.num 50) (.num 50) (.num 50) (.arr []) (.obj []) (.obj [])).1
      1 (.str "positive") (.num 80) (.num 80) (.num 80) (.num 80)
      (.num 80) (.arr []) (.obj []) (.obj [])).1
    1
    ⟨1, 1, .str "neutral", .num 50, .num 50, .num 50, .num 50, .num 50,
      .arr [], .obj [], .obj []⟩
    (by simp [create_analysis, emptyDB])
    rfl

/-!
### Pipeline lemmas
-/

/-- A successful section-persistence loop appends one row per section,
tagged with the analysis id and consecutive `section_order` values from
`idx`, and touches no other table. -/
theorem persist_sections_ok (aid : Nat) (sl : List JVal) :
    ∀ (db db' : DB) (idx : Nat),
    persist_sections db aid sl idx = (db', .ok ()) →
    ∃ rows : List SectionRow,
      db'.sections = db.sections ++ rows ∧
      (∀ r ∈ rows, r.analysis_id = aid) ∧
      rows.map SectionRow.section_order = List.range' idx rows.length ∧
      rows.length = sl.length ∧
      db'.analyses = db.analyses ∧
      db'.documents = db.documents ∧
      db'.next_analysis_id = db.next_analysis_id ∧
      db'.next_document_id = db.next_document_id := by
  induction sl with
  | nil =>
    intro db db' idx h
    rw [persist_sections] at h
    have h1 : db = db' := congrArg Prod.fst h
    subst h1
    refine ⟨[], ?_, ?_, ?_, ?_, ?_, ?_, ?_, ?_⟩ <;> simp
  | cons s rest ih =>
    intro db db' idx h
    rw [persist_sections] at h
    cases hes : extract_section_fields s with
    | error e => rw [hes] at h; simp at h
    | ok f =>
      rw [hes] at h
      simp only [create_section] at h
      obtain ⟨rows, h1, h2, h3, h4, h5, h6, h7, h8⟩ := ih _ _ _ h
      refine ⟨⟨db.next_section_id, aid, f.section_title, f.section_type,
        f.speaker, f.original_text, f.sentiment_score, f.confidence_score,
        f.clarity_score, f.readability_score, f.specificity_score, f.issues,
        f.suggested_revision, f.revision_rationale, idx⟩ :: rows, ?_, ?_, ?_,
        by simpa using h4, by simpa using h5, by simpa using h6,
        by simpa using h7, by simpa using h8⟩
      · rw [h1]; simp
      · intro r hr
        rcases List.mem_cons.mp hr with rfl | hmem
        · rfl
        · exact h2 r hmem
      · simp only [List.map_cons, List.length_cons, List.range'_succ,
          List.cons.injEq]
        exact ⟨trivial, h3⟩

/-- A successful run of the shared annotation-and-persistence block
appends exactly one Analysis row carrying the subscripted fields of the
document-level annotation result, plus the section rows, and leaves the
`documents` table alone. -/
theorem analyze_and_persist_ok (loads : String → Option JVal)
    (dc sc : Except String String) (dt text : String) (db db' : DB)
    (doc_id aid : Nat)
    (h : analyze_and_persist loads dc sc dt text db doc_id = (db', .ok aid)) :
    ∃ (f : AnalysisFields) (sl : List JVal) (rows : List SectionRow),
      extract_analysis_fields (analyze_document_content loads dc) = .ok f ∧
      (analyze_sections_content loads sc text).toIterList = .ok sl ∧
      aid = db.next_analysis_id ∧
      db'.analyses = db.analyses ++
        [⟨db.next_analysis_id, doc_id, f.overall_sentiment, f.sentiment_score,
          f.confidence_score, f.clarity_score, f.readability_score,
          f.specificity_score, f.key_themes, f.emotional_tone,
          f.linguistic_metrics⟩] ∧
      db'.sections = db.sections ++ rows ∧
      (∀ r ∈ rows, r.analysis_id = db.next_analysis_id) ∧
      rows.map SectionRow.section_order = List.range' 0 rows.length ∧
      rows.length = sl.length ∧
      db'.documents = db.documents ∧
      db'.next_analysis_id = db.next_analysis_id + 1 := by
  rw [analyze_and_persist] at h
  cases hef : extract_analysis_fields (analyze_document_content loads dc) with
  | error e => rw [hef] at h; simp at h
  | ok f =>
    rw [hef] at h
    simp only [create_analysis] at h
    cases hit : (analyze_sections_content loads sc text).toIterList with
    | error e => rw [hit] at h; simp at h
    | ok sl =>
      simp only [hit] at h
      rcases hps : persist_sections
        { db with
            analyses := db.analyses ++
              [⟨db.next_analysis_id, doc_id, f.overall_sentiment,
                f.sentiment_score, f.confidence_score, f.clarity_score,
                f.readability_score, f.specificity_score, f.key_themes,
                f.emotional_tone, f.linguistic_metrics⟩],
            next_analysis_id := db.next_analysis_id + 1 }
        db.next_analysis_id sl 0 with ⟨db2, r⟩
      rw [hps] at h
      cases r with
      | error e => simp at h
      | ok u =>
        cases u
        simp only [create_metrics, Prod.mk.injEq, Except.ok.injEq] at h
        obtain ⟨hdb', haid⟩ := h
        obtain ⟨rows, p1, p2, p3, p4, p5, p6, p7, p8⟩ :=
          persist_sections_ok db.next_analysis_id sl _ _ _ hps
        refine ⟨f, sl, rows, rfl, rfl, haid.symm, ?_, ?_, p2, p3, p4, ?_, ?_⟩
        · rw [← hdb']; simpa using p5
        · rw [← hdb']; simpa using p1
        · rw [← hdb']; simpa using p6
        · rw [← hdb']; simpa using p7

/-- Lookup by `find?` on an id commutes with the row-wise status update. -/
theorem find_update_status (l : List DocumentRow) (i : Nat) (s : String) :
    ((l.map (fun d => if d.id == i then { d with status := s } else d)).find?
        (fun d => d.id == i))
      = (l.find? (fun d => d.id == i)).map (fun d => { d with status := s }) := by
  induction l with
  | nil => rfl
  | cons d rest ih =>
    rw [List.map_cons]
    by_cases hd : d.id = i
    · have hgd : (if (d.id == i) = true
            then ({ d with status := s } : DocumentRow) else d)
          = { d with status := s } := by simp [hd]
      rw [hgd, List.find?_cons, List.find?_cons]
      simp only [hd, beq_self_eq_true]
      simp [hd]
    · have hgd : (if (d.id == i) = true
            then ({ d with status := s } : DocumentRow) else d) = d := by
        simp [hd]
      have h2 : (d.id == i) = false := by simp [hd]
      rw [hgd, List.find?_cons, List.find?_cons]
      simp only [h2]
      exact ih

/-- Reading with `get_document` only touches the `documents` table. -/
theorem get_document_congr (db1 db2 : DB) (i : Nat)
    (h : db1.documents = db2.documents) :
    get_document db1 i = get_document db2 i := by
  simp [get_document, h]

/-- Reading with `get_document` after the status update of the same id. -/
theorem get_document_update_status (db : DB) (i : Nat) (s : String) :
    get_document (update_document_status db i s) i
      = (get_document db i).map (fun d => { d with status := s }) := by
  simp only [get_document, update_document_status]
  exact find_update_status db.documents i s

/-- A freshly appended row with the next id is the one `find?` by that id
returns, when every earlier row has a smaller id. -/
theorem find_append_fresh (db : DB) (row : DocumentRow)
    (hwf : ∀ d ∈ db.documents, d.id < db.next_document_id)
    (hid : row.id = db.next_document_id) :
    (db.documents ++ [row]).find? (fun d => d.id == db.next_document_id)
      = some row := by
  rw [List.find?_append, List.find?_eq_none.mpr, Option.none_or]
  · simp [List.find?_cons, hid]
  · intro d hd
    simp only [beq_iff_eq]
    exact Nat.ne_of_lt (hwf d hd)

/-- A successful `try` body of `upload_document` decomposes into a
successful extraction, the `"processing"` write, a successful
annotation-and-persistence block, and the `"completed"` write. -/
theorem upload_document_body_ok (env : PipelineEnv) (dt : String)
    (db db2 : DB) (id : Nat) (tr : List String)
    (h : upload_document_body env dt db id = (db2, tr, .ok ())) :
    ∃ (text : String) (db1' : DB) (aid : Nat),
      env.extract = .ok text ∧
      tr = ["processing", "completed"] ∧
      analyze_and_persist env.loads env.doc_call env.sec_call dt text
        (update_document_status db id "processing") id = (db1', .ok aid) ∧
      db2 = update_document_status db1' id "completed" := by
  rw [upload_document_body] at h
  cases hex : env.extract with
  | error e => rw [hex] at h; simp at h
  | ok text =>
    simp only [hex] at h
    rcases hap : analyze_and_persist env.loads env.doc_call env.sec_call dt
      text (update_document_status db id "processing") id with ⟨db1', r⟩
    rw [hap] at h
    cases r with
    | error e => simp at h
    | ok aid =>
      simp only [Prod.mk.injEq] at h
      obtain ⟨h1, h2, -⟩ := h
      exact ⟨text, db1', aid, rfl, h2.symm, hap, h1.symm⟩

/-- A text upload that returns a document decomposes into passed
validations, a fresh `"uploading"` row, a successful body, and a final
`"completed"` read-back: the returned document is the created row in
status `"completed"`, the trace is the full forward path, and the new
Analysis and Section rows are exactly those of the
annotation-and-persistence block. -/
theorem upload_document_ok (req : UploadRequest) (oa : Bool)
    (models : List String) (env : PipelineEnv) (db db' : DB)
    (trace : List String) (doc : DocumentRow) (hwf : db.WF)
    (h : upload_document req oa models env db = (db', trace, .ok doc)) :
    doc = ⟨db.next_document_id, req.title, req.document_type,
      "data/uploads/" ++ req.filename, "completed"⟩ ∧
    trace = ["uploading", "processing", "completed"] ∧
    ∃ (text : String) (f : AnalysisFields) (sl : List JVal)
      (rows : List SectionRow),
      env.extract = .ok text ∧
      extract_analysis_fields (analyze_document_content env.loads env.doc_call)
        = .ok f ∧
      (analyze_sections_content env.loads env.sec_call text).toIterList
        = .ok sl ∧
      db'.analyses = db.analyses ++
        [⟨db.next_analysis_id, db.next_document_id, f.overall_sentiment,
          f.sentiment_score, f.confidence_score, f.clarity_score,
          f.readability_score, f.specificity_score, f.key_themes,
          f.emotional_tone, f.linguistic_metrics⟩] ∧
      db'.sections = db.sections ++ rows ∧
      (∀ r ∈ rows, r.analysis_id = db.next_analysis_id) ∧
      rows.map SectionRow.section_order = List.range' 0 rows.length ∧
      rows.length = sl.length := by
  rw [upload_document] at h
  split at h
  · exact absurd h (by simp)
  split at h
  · exact absurd h (by simp)
  split at h
  · exact absurd h (by simp)
  split at h
  · exact absurd h (by simp)
  simp only [create_document] at h
  split at h
  case _ db2 tr e heq => exact absurd h (by simp)
  case _ db2 tr u heq =>
    cases u
    split at h
    case _ d heq2 =>
      simp only [Prod.mk.injEq, Except.ok.injEq] at h
      obtain ⟨hdb', htr, hdoc⟩ := h
      obtain ⟨text, db1', aid, hex, htr', hap, hdb2⟩ :=
        upload_document_body_ok _ _ _ _ _ _ heq
      obtain ⟨f, sl, rows, hf, hsl, haid, hana, hsec, hrowsaid, hord, hlen,
        hdocs, hnext⟩ := analyze_and_persist_ok _ _ _ _ _ _ _ _ _ hap
      have hgd : get_document db2 db.next_document_id
          = some ⟨db.next_document_id, req.title, req.document_type,
              "data/uploads/" ++ req.filename, "completed"⟩ := by
        rw [hdb2, get_document_update_status,
          get_document_congr db1'
            (update_document_status
              { db with
                  documents := db.documents ++
                    [⟨db.next_document_id, req.title, req.document_type,
                      "data/uploads/" ++ req.filename, "uploading"⟩],
                  next_document_id := db.next_document_id + 1 }
              db.next_document_id "processing")
            db.next_document_id (by simpa using hdocs),
          get_document_update_status]
        have : get_document
            { db with
                documents := db.documents ++
                  [⟨db.next_document_id, req.title, req.document_type,
                    "data/uploads/" ++ req.filename, "uploading"⟩],
                next_document_id := db.next_document_id + 1 }
            db.next_document_id
            = some ⟨db.next_document_id, req.title, req.document_type,
                "data/uploads/" ++ req.filename, "uploading"⟩ := by
          simp only [get_document]
          exact find_append_fresh db _ hwf.1 rfl
        rw [this]
        rfl
      have hd : d = ⟨db.next_document_id, req.title, req.document_type,
          "data/uploads/" ++ req.filename, "completed"⟩ := by
        rw [heq2] at hgd
        exact Option.some.injEq .. ▸ hgd
      refine ⟨hdoc.symm.trans hd, by rw [← htr, htr'], text, f, sl, rows,
        hex, hf, hsl, ?_, ?_, ?_, hord, hlen⟩
      · rw [← hdb', hdb2]
        simpa using hana
      · rw [← hdb', hdb2]
        simpa using hsec
      · intro r hr
        simpa using hrowsaid r hr
    case _ heq2 => exact absurd h (by simp)

/-- The `try` body of a text upload produces one of three outcomes:
failure before the `"processing"` write, failure after it, or full
success. -/
theorem upload_document_body_traces (env : PipelineEnv) (dt : String)
    (db : DB) (id : Nat) :
    (∃ db2 e, upload_document_body env dt db id = (db2, [], Except.error e)) ∨
    (∃ db2 e, upload_document_body env dt db id
      = (db2, ["processing"], Except.error e)) ∨
    (∃ db2, upload_document_body env dt db id
      = (db2, ["processing", "completed"], Except.ok ())) := by
  rw [upload_document_body]
  cases hex : env.extract with
  | error e => exact Or.inl ⟨db, e, rfl⟩
  | ok text =>
    rcases hap : analyze_and_persist env.loads env.doc_call env.sec_call dt
      text (update_document_status db id "processing") id with ⟨db1', r⟩
    cases r with
    | error e =>
      refine Or.inr (Or.inl ⟨db1', e, ?_⟩)
      simp only [hap]
    | ok aid =>
      refine Or.inr (Or.inr ⟨update_document_status db1' id "completed", ?_⟩)
      simp only [hap]

/-- The status history of a text upload is one of four lists: rejected
before a row existed, failed at extraction, failed during
annotation/persistence, or completed. -/
theorem upload_document_traces (req : UploadRequest) (oa : Bool)
    (models : List String) (env : PipelineEnv) (db : DB) :
    (upload_document req oa models env db).2.1 = [] ∨
    (upload_document req oa models env db).2.1 = ["uploading", "failed"] ∨
    (upload_document req oa models env db).2.1
      = ["uploading", "processing", "failed"] ∨
    (upload_document req oa models env db).2.1
      = ["uploading", "processing", "completed"] := by
  rw [upload_document]
  split
  · exact Or.inl rfl
  split
  · exact Or.inl rfl
  split
  · exact Or.inl rfl
  split
  · exact Or.inl rfl
  simp only [create_document]
  rcases upload_document_body_traces env req.document_type
      { db with
          documents := db.documents ++
            [⟨db.next_document_id, req.title, req.document_type,
              "data/uploads/" ++ req.filename, "uploading"⟩],
          next_document_id := db.next_document_id + 1 }
      db.next_document_id with ⟨db2, e, hb⟩ | ⟨db2, e, hb⟩ | ⟨db2, hb⟩
  · simp only [hb]
    exact Or.inr (Or.inl rfl)
  · simp only [hb]
    exact Or.inr (Or.inr (Or.inl rfl))
  · simp only [hb]
    split
    · exact Or.inr (Or.inr (Or.inr rfl))
    · exact Or.inr (Or.inr (Or.inr rfl))

/-- The `try` body of an audio upload produces one of three outcomes:
failure at transcription, failure during annotation/persistence, or
full success. -/
theorem upload_audio_body_traces (env : AudioEnv) (dt : String) (db : DB)
    (id : Nat) :
    (∃ db2 e, upload_audio_body env dt db id
      = (db2, ["transcribing"], Except.error e)) ∨
    (∃ db2 e, upload_audio_body env dt db id
      = (db2, ["transcribing", "analyzing"], Except.error e)) ∨
    (∃ db2, upload_audio_body env dt db id
      = (db2, ["transcribing", "analyzing", "completed"], Except.ok ())) := by
  rw [upload_audio_body]
  cases hex : env.transcribe with
  | error e => exact Or.inl ⟨_, e, rfl⟩
  | ok text =>
    rcases hap : analyze_and_persist env.loads env.doc_call env.sec_call dt
      text (update_document_status
        (update_document_status db id "transcribing") id "analyzing") id
      with ⟨db1', r⟩
    cases r with
    | error e =>
      refine Or.inr (Or.inl ⟨db1', e, ?_⟩)
      simp only [hap]
    | ok aid =>
      refine Or.inr (Or.inr ⟨update_document_status db1' id "completed", ?_⟩)
      simp only [hap]

/-- The status history of an audio upload is one of four lists. -/
theorem upload_audio_traces (req : AudioUploadRequest) (env : AudioEnv)
    (db : DB) :
    (upload_audio_document req env db).2.1 = [] ∨
    (upload_audio_document req env db).2.1
      = ["uploading", "transcribing", "failed"] ∨
    (upload_audio_document req env db).2.1
      = ["uploading", "transcribing", "analyzing", "failed"] ∨
    (upload_audio_document req env db).2.1
      = ["uploading", "transcribing", "analyzing", "completed"] := by
  rw [upload_audio_document]
  split
  · exact Or.inl rfl
  split
  · exact Or.inl rfl
  simp only [create_document]
  rcases upload_audio_body_traces env req.document_type
      { db with
          documents := db.documents ++
            [⟨db.next_document_id, req.title, req.document_type,
              "data/uploads/" ++ req.filename, "uploading"⟩],
          next_document_id := db.next_document_id + 1 }
      db.next_document_id with ⟨db2, e, hb⟩ | ⟨db2, e, hb⟩ | ⟨db2, hb⟩
  · simp only [hb]
    exact Or.inr (Or.inl rfl)
  · simp only [hb]
    exact Or.inr (Or.inr (Or.inl rfl))
  · simp [hb]

/-!
### C2 — the status state machine
-/

/-- C2: for every document processed by either pipeline (text or audio
upload), the status history moves only forward along
`uploading → (transcribing → analyzing | processing) → completed`, with
`failed` only as a final state; once `completed` or `failed` is written
the pipeline writes no further status in the same attempt (terminal
statuses occur only at the end of the history).  Moreover `failed` is
reachable from every non-terminal status and `completed` is reachable,
witnessed by concrete runs. -/
theorem c2_status_machine :
    (∀ (req : UploadRequest) (oa : Bool) (models : List String)
        (env : PipelineEnv) (db : DB),
      ValidStatusTrace ((upload_document req oa models env db).2.1)) ∧
    (∀ (req : AudioUploadRequest) (env : AudioEnv) (db : DB),
      ValidStatusTrace ((upload_audio_document req env db).2.1)) ∧
    (∃ (req : UploadRequest) (oa : Bool) (models : List String)
        (env : PipelineEnv) (db : DB),
      (upload_document req oa models env db).2.1 = ["uploading", "failed"]) ∧
    (∃ (req : UploadRequest) (oa : Bool) (models : List String)
        (env : PipelineEnv) (db : DB),
      (upload_document req oa models env db).2.1
        = ["uploading", "processing", "failed"]) ∧
    (∃ (req : UploadRequest) (oa : Bool) (models : List String)
        (env : PipelineEnv) (db : DB),
      (upload_document req oa models env db).2.1
        = ["uploading", "processing", "completed"]) ∧
    (∃ (req : AudioUploadRequest) (env : AudioEnv) (db : DB),
      (upload_audio_document req env db).2.1
        = ["uploading", "transcribing", "failed"]) ∧
    (∃ (req : AudioUploadRequest) (env : AudioEnv) (db : DB),
      (upload_audio_document req env db).2.1
        = ["uploading", "transcribing", "analyzing", "failed"]) ∧
    (∃ (req : AudioUploadRequest) (env : AudioEnv) (db : DB),
      (upload_audio_document req env db).2.1
        = ["uploading", "transcribing", "analyzing", "completed"]) := by
  refine ⟨?_, ?_, ?_, ?_, ?_, ?_, ?_, ?_⟩
  · intro req oa models env db
    rcases upload_document_traces req oa models env db with h | h | h | h <;>
      rw [h]
    · exact ⟨Or.inl rfl, by simp, by simp⟩
    · exact ⟨Or.inr rfl, List.Chain.cons rfl List.Chain.nil, by decide⟩
    · exact ⟨Or.inr rfl,
        List.Chain.cons rfl (List.Chain.cons rfl List.Chain.nil), by decide⟩
    · exact ⟨Or.inr rfl,
        List.Chain.cons rfl (List.Chain.cons rfl List.Chain.nil), by decide⟩
  · intro req env db
    rcases upload_audio_traces req env db with h | h | h | h <;>
      rw [h]
    · exact ⟨Or.inl rfl, by simp, by simp⟩
    · exact ⟨Or.inr rfl,
        List.Chain.cons rfl (List.Chain.cons rfl List.Chain.nil), by decide⟩
    · exact ⟨Or.inr rfl,
        List.Chain.cons rfl (List.Chain.cons rfl
          (List.Chain.cons rfl List.Chain.nil)), by decide⟩
    · exact ⟨Or.inr rfl,
        List.Chain.cons rfl (List.Chain.cons rfl
          (List.Chain.cons rfl List.Chain.nil)), by decide⟩
  · exact ⟨sampleRequest, true, ["llama3.2"],
      ⟨.error "io error", sampleLoads, .ok "DOC", .ok "SECS"⟩, emptyDB,
      by decide⟩
  · exact ⟨sampleRequest, true, ["llama3.2"],
      ⟨.ok "text", sampleLoads, .ok "NOSECS", .ok "SECS"⟩, emptyDB,
      by decide⟩
  · exact ⟨sampleRequest, true, ["llama3.2"], sampleEnv, emptyDB, by decide⟩
  · exact ⟨⟨"Call", "earnings_call", "llama3.2", "balanced", "en",
      "call.mp3", 100⟩,
      ⟨.error "whisper missing", sampleLoads, .ok "DOC", .ok "SECS"⟩,
      emptyDB, by decide⟩
  · exact ⟨⟨"Call", "earnings_call", "llama3.2", "balanced", "en",
      "call.mp3", 100⟩,
      ⟨.ok "transcript", sampleLoads, .ok "NOSECS", .ok "SECS"⟩,
      emptyDB, by decide⟩
  · exact ⟨⟨"Call", "earnings_call", "llama3.2", "balanced", "en",
      "call.mp3", 100⟩,
      ⟨.ok "transcript", sampleLoads, .ok "DOC", .ok "SECS"⟩,
      emptyDB, by decide⟩

/-!
### C4 — upload with the annotation backend unreachable
-/

/-- C4 (counterexample): uploading a valid file while the backend is
unreachable does NOT produce a Document row in status `"failed"`: the
pre-flight check rejects the request with a 503 before any row is
created, so the database still holds no document at all (and a fortiori
no Analysis row). -/
theorem c4_unreachable_creates_no_failed_document :
    (upload_document sampleRequest false ["llama3.2"] sampleEnv emptyDB).1.documents
      = [] ∧
    (upload_document sampleRequest false ["llama3.2"] sampleEnv emptyDB).1.analyses
      = [] ∧
    (upload_document sampleRequest false ["llama3.2"] sampleEnv emptyDB).2.2
      = .error ⟨503, "Ollama not available"⟩ ∧
    ¬∃ d ∈ (upload_document sampleRequest false ["llama3.2"] sampleEnv
        emptyDB).1.documents, d.status = "failed" := by
  refine ⟨rfl, rfl, rfl, ?_⟩
  rintro ⟨d, hd, -⟩
  have : (upload_document sampleRequest false ["llama3.2"] sampleEnv
      emptyDB).1.documents = [] := rfl
  rw [this] at hd
  exact absurd hd (List.not_mem_nil d)

/-- C4 (amended): a document upload request that passes the type and
extension validation but finds the annotation backend unreachable at the
pre-flight probe is rejected with a 503 client error BEFORE any Document
row is created: the database is returned unchanged, so no Document row
(and hence no Analysis row) exists for the upload.  (A backend that
becomes unreachable only after the probe is masked by the default
result, per C1, and the document completes.) -/
theorem c4_amended_unreachable_rejected_before_row (req : UploadRequest)
    (models : List String) (env : PipelineEnv) (db : DB)
    (hdt : req.document_type ∈ valid_types)
    (hext : file_extension req.filename ∈ allowed_extensions) :
    upload_document req false models env db
      = (db, [], .error ⟨503, "Ollama not available"⟩) := by
  rw [upload_document, if_neg (fun hn => hn hdt), if_neg (fun hn => hn hext),
    if_pos rfl]

/-- Witness for C4 (amended) at a concrete request and an empty
database. -/
theorem c4_amended_unreachable_rejected_before_row_witness :
    upload_document sampleRequest false ["llama3.2"] sampleEnv emptyDB
      = (emptyDB, [], .error ⟨503, "Ollama not available"⟩) :=
  c4_amended_unreachable_rejected_before_row sampleRequest ["llama3.2"]
    sampleEnv emptyDB (by decide) (by decide)

/-!
### C7 — upload validation: extension yes, size no
-/

/-- C7 (counterexample): a 20 MB text file — twice the documented 10 MB
cap, as `validate_file_size` itself confirms — is accepted by
`upload_document`: a Document row is created, the pipeline runs to
completion, and the upload returns the completed document.  The size cap
is never checked on the document upload path. -/
theorem c7_oversized_file_not_rejected :
    validate_file_size 20971520 10 = false ∧
    (upload_document ⟨"Big", "other", "llama3.2", "big.txt", 20971520⟩
      true ["llama3.2"] sampleEnv emptyDB).1.documents.length = 1 ∧
    ∃ db' trace doc,
      upload_document ⟨"Big", "other", "llama3.2", "big.txt", 20971520⟩
        true ["llama3.2"] sampleEnv emptyDB = (db', trace, .ok doc) ∧
      doc.status = "completed" := by
  refine ⟨by decide, rfl, _, _, _, rfl, rfl⟩

/-- C7 (amended): a file whose extension is outside the allow-list is
rejected with a client error (HTTP 400) before any Document row is
created or any content is processed; the file SIZE, however, is never
inspected by the document upload path (`validate_file_size` exists but
is not invoked): the handler's behaviour is identical for every value of
the upload's size. -/
theorem c7_amended_extension_checked_size_not (req : UploadRequest)
    (oa : Bool) (models : List String) (env : PipelineEnv) (db : DB) :
    (file_extension req.filename ∉ allowed_extensions →
      ∃ e, upload_document req oa models env db = (db, [], .error e) ∧
        e.status_code = 400) ∧
    (∀ n : Nat,
      upload_document req oa models env db
        = upload_document { req with size_bytes := n } oa models env db) := by
  constructor
  · intro hext
    rw [upload_document]
    by_cases hdt : req.document_type ∈ valid_types
    · rw [if_neg (fun hn => hn hdt), if_pos hext]
      exact ⟨⟨400, "File type not supported"⟩, rfl, rfl⟩
    · rw [if_pos hdt]
      exact ⟨⟨400, "Invalid document type"⟩, rfl, rfl⟩
  · intro n
    rfl

/-- Witness for C7 (amended): a `.exe` upload is rejected with a 400 and
no row is created. -/
theorem c7_amended_extension_checked_size_not_witness :
    ∃ e, upload_document ⟨"T", "other", "llama3.2", "evil.exe", 10⟩
        true ["llama3.2"] sampleEnv emptyDB = (emptyDB, [], .error e) ∧
      e.status_code = 400 :=
  (c7_amended_extension_checked_size_not
    ⟨"T", "other", "llama3.2", "evil.exe", 10⟩
    true ["llama3.2"] sampleEnv emptyDB).1 (by decide)

/-!
### C3 — the Analysis row of a completed upload
-/

/-- C3 (counterexample): a backend returning syntactically valid JSON
with `sentiment_score` 150 leads to a COMPLETED document whose persisted
Analysis row carries the score 150 — outside `[0, 100]`.  No code path
clamps or validates the scores. -/
theorem c3_out_of_range_score_persisted :
    ∃ db' trace doc,
      upload_document sampleRequest true ["llama3.2"]
        ⟨.ok "text", sampleLoads, .ok "DOC150", .error "backend down"⟩
        emptyDB = (db', trace, .ok doc) ∧
      doc.status = "completed" ∧
      db'.analyses.map (fun a => (a.document_id, a.sentiment_score))
        = [(doc.id, .num 150)] ∧
      score_in_range (.num 150) = false := by
  refine ⟨_, _, _, rfl, rfl, rfl, ?_⟩
  have h100 : ¬((150 : ℚ) ≤ 100) := by norm_num
  simp [score_in_range, h100]

/-- C3 (amended): every valid upload whose processing ends `completed`
has an Analysis row linked to exactly the originating Document; its five
scores are exactly the values subscripted out of the annotation result —
they lie in `[0, 100]` whenever the annotation values do (as the failure
default does), but the code never enforces the bound. -/
theorem c3_amended_completed_has_linked_analysis (req : UploadRequest)
    (oa : Bool) (models : List String) (env : PipelineEnv) (db db' : DB)
    (trace : List String) (doc : DocumentRow) (hwf : db.WF)
    (h : upload_document req oa models env db = (db', trace, .ok doc)) :
    doc.status = "completed" ∧
    ∃ f, extract_analysis_fields
        (analyze_document_content env.loads env.doc_call) = .ok f ∧
      ∃ a ∈ db'.analyses,
        a.document_id = doc.id ∧
        a.sentiment_score = f.sentiment_score ∧
        a.confidence_score = f.confidence_score ∧
        a.clarity_score = f.clarity_score ∧
        a.readability_score = f.readability_score ∧
        a.specificity_score = f.specificity_score ∧
        ((score_in_range f.sentiment_score = true ∧
          score_in_range f.confidence_score = true ∧
          score_in_range f.clarity_score = true ∧
          score_in_range f.readability_score = true ∧
          score_in_range f.specificity_score = true) →
         (score_in_range a.sentiment_score = true ∧
          score_in_range a.confidence_score = true ∧
          score_in_range a.clarity_score = true ∧
          score_in_range a.readability_score = true ∧
          score_in_range a.specificity_score = true)) := by
  obtain ⟨hdoc, htrace, text, f, sl, rows, hex, hf, hsl, hana, hsec,
    hrowsaid, hord, hlen⟩ := upload_document_ok req oa models env db db'
      trace doc hwf h
  subst hdoc
  refine ⟨rfl, f, hf,
    ⟨db.next_analysis_id, db.next_document_id, f.overall_sentiment,
      f.sentiment_score, f.confidence_score, f.clarity_score,
      f.readability_score, f.specificity_score, f.key_themes,
      f.emotional_tone, f.linguistic_metrics⟩, ?_, rfl, rfl, rfl, rfl, rfl,
    rfl, fun hr => hr⟩
  rw [hana]
  simp

/-- Witness for C3 (amended): the fully successful sample upload. -/
theorem c3_amended_completed_has_linked_analysis_witness :
    (⟨1, "Test", "other", "data/uploads/report.txt", "completed"⟩ :
        DocumentRow).status = "completed" ∧
    ∃ f, extract_analysis_fields
        (analyze_document_content sampleEnv.loads sampleEnv.doc_call)
        = .ok f ∧
      ∃ a ∈ (upload_document sampleRequest true ["llama3.2"] sampleEnv
          emptyDB).1.analyses,
        a.document_id = (⟨1, "Test", "other", "data/uploads/report.txt",
          "completed"⟩ : DocumentRow).id ∧
        a.sentiment_score = f.sentiment_score ∧
        a.confidence_score = f.confidence_score ∧
        a.clarity_score = f.clarity_score ∧
        a.readability_score = f.readability_score ∧
        a.specificity_score = f.specificity_score ∧
        ((score_in_range f.sentiment_score = true ∧
          score_in_range f.confidence_score = true ∧
          score_in_range f.clarity_score = true ∧
          score_in_range f.readability_score = true ∧
          score_in_range f.specificity_score = true) →
         (score_in_range a.sentiment_score = true ∧
          score_in_range a.confidence_score = true ∧
          score_in_range a.clarity_score = true ∧
          score_in_range a.readability_score = true ∧
          score_in_range a.specificity_score = true)) :=
  c3_amended_completed_has_linked_analysis sampleRequest true ["llama3.2"]
    sampleEnv emptyDB
    (upload_document sampleRequest true ["llama3.2"] sampleEnv emptyDB).1
    (upload_document sampleRequest true ["llama3.2"] sampleEnv emptyDB).2.1
    ⟨1, "Test", "other", "data/uploads/report.txt", "completed"⟩
    (by decide) rfl

/-!
### C5 — section order contiguity
-/

/-- Inserting below every element is prepending. -/
theorem insertByOrder_of_le (r : SectionRow) (l : List SectionRow)
    (h : ∀ x ∈ l, r.section_order ≤ x.section_order) :
    insertByOrder r l = r :: l := by
  cases l with
  | nil => rfl
  | cons x xs =>
    rw [insertByOrder, if_pos (h x (List.mem_cons_self x xs))]

/-- Sorting with `sortByOrder` fixes a list already sorted by `section_order`. -/
theorem sortByOrder_of_sorted (l : List SectionRow)
    (h : List.Pairwise (fun a b => a.section_order ≤ b.section_order) l) :
    sortByOrder l = l := by
  induction l with
  | nil => rfl
  | cons a rest ih =>
    obtain ⟨ha, hrest⟩ := List.pairwise_cons.mp h
    rw [sortByOrder, ih hrest, insertByOrder_of_le a rest ha]

/-- C5: after a completed upload, reading the Sections of the created
Analysis back yields rows whose `section_order` values are exactly
`0 .. N-1` with no gaps (in that order, since the read sorts by
`section_order`). -/
theorem c5_section_orders_contiguous (req : UploadRequest) (oa : Bool)
    (models : List String) (env : PipelineEnv) (db db' : DB)
    (trace : List String) (doc : DocumentRow) (hwf : db.WF)
    (h : upload_document req oa models env db = (db', trace, .ok doc)) :
    (get_sections_by_analysis_id db' db.next_analysis_id).map
        SectionRow.section_order
      = List.range
          ((get_sections_by_analysis_id db' db.next_analysis_id).length) := by
  obtain ⟨hdoc, htrace, text, f, sl, rows, hex, hf, hsl, hana, hsec,
    hrowsaid, hord, hlen⟩ := upload_document_ok req oa models env db db'
      trace doc hwf h
  have hfilter : db'.sections.filter
      (fun s => s.analysis_id == db.next_analysis_id) = rows := by
    rw [hsec, List.filter_append,
      List.filter_eq_nil_iff.mpr
        (fun s hs => by
          simp only [beq_iff_eq]
          exact Nat.ne_of_lt (hwf.2.2.1 s hs)),
      List.filter_eq_self.mpr
        (fun r hr => by simp [hrowsaid r hr]),
      List.nil_append]
  have hsorted : List.Pairwise
      (fun a b : SectionRow => a.section_order ≤ b.section_order) rows := by
    have hlt : List.Pairwise (· < ·) (rows.map SectionRow.section_order) := by
      rw [hord]
      exact List.pairwise_lt_range' 0 rows.length
    exact (List.pairwise_map.mp hlt).imp (fun hab => le_of_lt hab)
  rw [get_sections_by_analysis_id, hfilter, sortByOrder_of_sorted rows hsorted,
    hord, List.range_eq_range']

/-- Witness for C5: the successful sample upload persists two sections
with orders `[0, 1]`. -/
theorem c5_section_orders_contiguous_witness :
    (get_sections_by_analysis_id
        (upload_document sampleRequest true ["llama3.2"] sampleEnv
          emptyDB).1 1).map SectionRow.section_order
      = List.range
          ((get_sections_by_analysis_id
            (upload_document sampleRequest true ["llama3.2"] sampleEnv
              emptyDB).1 1).length) :=
  c5_section_orders_contiguous sampleRequest true ["llama3.2"] sampleEnv
    emptyDB
    (upload_document sampleRequest true ["llama3.2"] sampleEnv emptyDB).1
    (upload_document sampleRequest true ["llama3.2"] sampleEnv emptyDB).2.1
    ⟨1, "Test", "other", "data/uploads/report.txt", "completed"⟩
    (by decide) rfl

/-!
### C10 — valid JSON without a "sections" key
-/

/-- C10: when the backend's section-level response is syntactically valid
JSON — an object with NO `"sections"` key — `analyze_sections_content`
returns the empty list (not the "Full Document" default section), so a
completed upload persists ZERO Section rows for the created Analysis
while the Document still ends in `"completed"`. -/
theorem c10_missing_sections_key_empty (req : UploadRequest) (oa : Bool)
    (models : List String) (env : PipelineEnv) (db db' : DB)
    (trace : List String) (doc : DocumentRow) (t : String)
    (flds : List (String × JVal)) (hwf : db.WF)
    (hsec : env.sec_call = .ok t)
    (hparse : env.loads t = some (.obj flds))
    (hnokey : lookupField flds "sections" = none)
    (h : upload_document req oa models env db = (db', trace, .ok doc)) :
    (∀ text, analyze_sections_content env.loads env.sec_call text
      = .arr []) ∧
    db'.sections = db.sections ∧
    doc.status = "completed" := by
  have hempty : ∀ text, analyze_sections_content env.loads env.sec_call text
      = .arr [] := by
    intro text
    simp [analyze_sections_content, hsec, hparse, JVal.dictGet, hnokey]
  obtain ⟨hdoc, htrace, textc, f, sl, rows, hex, hf, hsl, hana, hsecs,
    hrowsaid, hord, hlen⟩ := upload_document_ok req oa models env db db'
      trace doc hwf h
  have hslnil : sl = [] := by
    rw [hempty textc] at hsl
    simpa [JVal.toIterList] using hsl.symm
  have hrowsnil : rows = [] := by
    rw [hslnil] at hlen
    exact List.length_eq_zero.mp hlen
  refine ⟨hempty, ?_, ?_⟩
  · rw [hsecs, hrowsnil, List.append_nil]
  · rw [hdoc]

/-- Witness for C10: a run whose section response is the JSON object
`(status : ok)` with no `"sections"` key persists zero Section rows and
completes. -/
theorem c10_missing_sections_key_empty_witness :
    (∀ text, analyze_sections_content sampleLoads (.ok "NOSECS") text
      = .arr []) ∧
    (upload_document sampleRequest true ["llama3.2"]
      ⟨.ok "text", sampleLoads, .ok "DOC", .ok "NOSECS"⟩
      emptyDB).1.sections = emptyDB.sections ∧
    (⟨1, "Test", "other", "data/uploads/report.txt", "completed"⟩ :
      DocumentRow).status = "completed" :=
  c10_missing_sections_key_empty sampleRequest true ["llama3.2"]
    ⟨.ok "text", sampleLoads, .ok "DOC", .ok "NOSECS"⟩ emptyDB
    (upload_document sampleRequest true ["llama3.2"]
      ⟨.ok "text", sampleLoads, .ok "DOC", .ok "NOSECS"⟩ emptyDB).1
    (upload_document sampleRequest true ["llama3.2"]
      ⟨.ok "text", sampleLoads, .ok "DOC", .ok "NOSECS"⟩ emptyDB).2.1
    ⟨1, "Test", "other", "data/uploads/report.txt", "completed"⟩
    "NOSECS" [("status", .str "ok")]
    (by decide) rfl rfl rfl rfl
